import Mathlib

/-!
Shallow embedding of `vendor/knative.dev/reconciler-test/pkg/test_images/eventshub/sender/sender.go`.

The sender is a send-loop state machine: it parses an optional base (template)
cloud event, optionally probes the sink, then repeatedly builds a request
(`generator.next`), performs the HTTP exchange, reports a Sent outcome and,
when the exchange returned a response, a Response outcome, and terminates once
the sequence counter has reached `MaxMessages` (`generator.hasNext`).

External effects are modelled explicitly:
  * the HTTP exchange result for iteration `i` is given by an oracle
    `WorldEnv.transport i` (an `Except`: transport error or a response);
  * probe attempts are given by `WorldEnv.probe i`;
  * JSON unmarshalling of the input event is a `parse` function parameter;
  * current time is replaced by the iteration index (the claims do not
    concern wall-clock values);
  * the loop is driven by explicit fuel; exhausting the fuel yields
    `RunResult.outOfFuel`, representing a run that is still going.
-/

namespace Sender

/-- Byte strings are lists of byte values. -/
abbrev Bytes := List Nat

/-- UTF-32 code points of a string, used as its byte rendering in the model. -/
def strBytes (s : String) : Bytes := s.data.map Char.toNat

/-- Model of `cloudevents.Event`: identifier, type, source, optional time,
extension attributes and optional data payload. -/
structure CloudEvent where
  id : String
  eventType : String
  source : String
  time : Option Nat
  extensions : List (String × String)
  dataBody : Option Bytes
deriving Repr, DecidableEq

/-- Model of `event.SetExtension(k, v)`: replace any binding of `k`, add the new one. -/
def CloudEvent.setExtension (e : CloudEvent) (k v : String) : CloudEvent :=
  { e with extensions := (e.extensions.filter (fun p => decide (p.1 ≠ k))) ++ [(k, v)] }

/-- Model of `event.SetID`. -/
def CloudEvent.setID (e : CloudEvent) (i : String) : CloudEvent := { e with id := i }

/-- Model of `event.SetTime`. -/
def CloudEvent.setTime (e : CloudEvent) (t : Nat) : CloudEvent := { e with time := some t }

/-- Model of `event.Clone()`; in a pure embedding a deep copy is the value itself. -/
def CloudEvent.clone (e : CloudEvent) : CloudEvent := e

/-- Model of `nethttp.Request`: method, target URL, headers and optional body. -/
structure Request where
  method : String
  url : String
  headers : List (String × String)
  body : Option Bytes
deriving Repr, DecidableEq

/-- The two supported cloud-event encodings selected in `Start`. -/
inductive EncodingMode where
  | binary
  | structured
deriving Repr, DecidableEq

/-- Parse of the `EVENT_ENCODING` option string done by the `switch` in `Start`. -/
def parseEncoding (s : String) : Option EncodingMode :=
  if s = "binary" then some EncodingMode.binary
  else if s = "structured" then some EncodingMode.structured
  else none

/-- Binary-mode headers written by `cehttp.WriteRequest`: event metadata
becomes `ce-` request headers. -/
def binaryHeaders (e : CloudEvent) : List (String × String) :=
  [("ce-id", e.id), ("ce-source", e.source), ("ce-type", e.eventType)]
    ++ (match e.time with | some t => [("ce-time", toString t)] | none => [])
    ++ e.extensions.map (fun p => ("ce-" ++ p.1, p.2))

/-- Structured-mode body written by `cehttp.WriteRequest`: the entire event
serialized into a single envelope. -/
def structuredBody (e : CloudEvent) : Bytes :=
  strBytes ("id=" ++ e.id ++ ";source=" ++ e.source ++ ";type=" ++ e.eventType
    ++ ";time=" ++ (match e.time with | some t => toString t | none => "")
    ++ ";extensions=" ++ String.intercalate "," (e.extensions.map (fun p => p.1 ++ "=" ++ p.2))
    ++ ";data=" ++ (match e.dataBody with
        | some b => String.intercalate "," (b.map toString)
        | none => ""))

/-- Model of `cehttp.WriteRequest(ctx, binding.ToMessage(event), req)`:
binary mode puts metadata in headers and the event data in the body;
structured mode serializes the whole event into the body. -/
def writeRequest (mode : EncodingMode) (e : CloudEvent) (req : Request) : Request :=
  match mode with
  | EncodingMode.binary =>
      { req with headers := req.headers ++ binaryHeaders e, body := e.dataBody }
  | EncodingMode.structured =>
      { req with headers := req.headers ++ [("content-type", "application/cloudevents+json")],
                 body := some (structuredBody e) }

/-- Model of the `generator` struct of the sender: the env-config fields plus
the processed state (`baseEvent`, `sequence`). -/
structure Generator where
  SenderName : String
  Sink : String
  Delay : Nat
  ProbeSink : Bool
  ProbeSinkTimeout : Nat
  InputEvent : String
  EventEncoding : String
  InputHeaders : List (String × String)
  InputBody : String
  InputMethod : String
  AddTracing : Bool
  AddSequence : Bool
  IncrementalId : Bool
  OverrideTime : Bool
  Period : Nat
  MaxMessages : Nat
  baseEvent : Option CloudEvent
  sequence : Nat
deriving Repr, DecidableEq

/-- Kinds of outcome records (`eventshub.EventSent` / `eventshub.EventResponse`). -/
inductive EventKind where
  | EventSent
  | EventResponse
deriving Repr, DecidableEq

/-- Model of `eventshub.EventInfo`: a tagged outcome record. Absent optional
fields are `none`; the error string is empty when there is no error, matching
the Go zero value. -/
structure EventInfo where
  kind : EventKind
  error : String
  event : Option CloudEvent
  origin : String
  observer : String
  time : Nat
  sequence : Nat
  httpHeaders : Option (List (String × String))
  body : Option Bytes
  statusCode : Option Nat
  sentId : String
deriving Repr, DecidableEq

/-- Decidable equality for `Except`, needed to evaluate concrete runs. -/
instance exceptDecidableEq {α β : Type} [DecidableEq α] [DecidableEq β] :
    DecidableEq (Except α β) := fun a b =>
  match a, b with
  | Except.error x, Except.error y =>
      if h : x = y then isTrue (by rw [h])
      else isFalse (by intro hc; cases hc; exact h rfl)
  | Except.ok x, Except.ok y =>
      if h : x = y then isTrue (by rw [h])
      else isFalse (by intro hc; cases hc; exact h rfl)
  | Except.error _, Except.ok _ => isFalse (by intro hc; cases hc)
  | Except.ok _, Except.error _ => isFalse (by intro hc; cases hc)

/-- Model of `nethttp.Response` together with the results of the two external
reads `responseInfo` performs on it: `bodyRead` is the outcome of
`ioutil.ReadAll(res.Body)`, `encodingKnown` says whether
`responseMessage.ReadEncoding()` is a known cloud-event encoding, and
`decoded` is the outcome of `binding.ToEvent` on the message. -/
structure HttpResponse where
  headers : List (String × String)
  statusCode : Nat
  encodingKnown : Bool
  bodyRead : Except String Bytes
  decoded : Except String CloudEvent
deriving Repr, DecidableEq

/-- Event id used in outcome records: the id of the built event when one
exists, the empty string otherwise. -/
def eventIdOf (event : Option CloudEvent) : String :=
  match event with
  | some e => e.id
  | none => ""

/-- Model of `generator.sentInfo(event, req, err)`: on a transport error the
record carries only the error string, identity, sequence and sent id; on
success it additionally carries the event, a snapshot of the request headers
and, when a static body override is configured, those bytes as the body. -/
def Generator.sentInfo (g : Generator) (event : Option CloudEvent) (req : Request)
    (err : Option String) (now : Nat) : EventInfo :=
  match err with
  | some msg =>
      { kind := EventKind.EventSent, error := msg, event := none,
        origin := g.SenderName, observer := g.SenderName, time := now,
        sequence := g.sequence, httpHeaders := none, body := none,
        statusCode := none, sentId := eventIdOf event }
  | none =>
      { kind := EventKind.EventSent, error := "", event := event,
        origin := g.SenderName, observer := g.SenderName, time := now,
        sequence := g.sequence, httpHeaders := some req.headers,
        body := if g.InputBody ≠ "" then some (strBytes g.InputBody) else none,
        statusCode := none, sentId := eventIdOf event }

/-- Model of `generator.responseInfo(res, event)`: always a Response-kind
record with the response headers, status code, origin = sink; if the response
encoding is unknown the raw body is attached (a read failure becomes the error
string), otherwise the decoded event is attached (a decode failure becomes the
error string). -/
def Generator.responseInfo (g : Generator) (res : HttpResponse)
    (event : Option CloudEvent) (now : Nat) : EventInfo :=
  let base : EventInfo :=
    { kind := EventKind.EventResponse, error := "", event := none,
      origin := g.Sink, observer := g.SenderName, time := now,
      sequence := g.sequence, httpHeaders := some res.headers, body := none,
      statusCode := some res.statusCode, sentId := eventIdOf event }
  if res.encodingKnown then
    match res.decoded with
    | Except.error msg => { base with error := msg }
    | Except.ok ev => { base with event := some ev }
  else
    match res.bodyRead with
    | Except.error msg => { base with error := msg }
    | Except.ok b => { base with body := some b }

/-- Model of `generator.init()`: parse the input event JSON when present
(a parse failure is fatal), and require at least one of input event, body or
headers. -/
def Generator.init (g : Generator) (parse : String → Except String CloudEvent) :
    Except String Generator :=
  match (if g.InputEvent ≠ "" then
          match parse g.InputEvent with
          | Except.error msg =>
              Except.error ("unable to unmarshal the event from json: " ++ msg)
          | Except.ok ev => Except.ok { g with baseEvent := some ev }
        else Except.ok g) with
  | Except.error msg => Except.error msg
  | Except.ok g2 =>
      if g2.InputEvent = "" ∧ g2.InputBody = "" ∧ g2.InputHeaders = [] then
        Except.error "input values not provided"
      else Except.ok g2

/-- Model of `generator.hasNext()`: true when `MaxMessages` is zero
(unbounded), otherwise true while the sequence counter is below it. -/
def Generator.hasNext (g : Generator) : Bool :=
  if g.MaxMessages = 0 then true else decide (g.sequence < g.MaxMessages)

/-- Model of `generator.next(ctx)`: build the request for this iteration.
When a base event exists it is cloned, the sequence counter is incremented,
the sequence/identifier/time overrides are applied to the clone and the clone
is encoded into the request; input headers are then added and a non-empty
static input body replaces the request body. Returns the request, the built
event (if any) and the updated generator state. -/
def Generator.next (g : Generator) (mode : EncodingMode) (now : Nat) :
    Request × Option CloudEvent × Generator :=
  let req : Request := { method := g.InputMethod, url := g.Sink, headers := [], body := none }
  let (req, event, g) :=
    match g.baseEvent with
    | none => (req, (none : Option CloudEvent), g)
    | some base =>
        let e := base.clone
        let g := { g with sequence := g.sequence + 1 }
        let e := if g.AddSequence then e.setExtension "sequence" (toString g.sequence) else e
        let e := if g.IncrementalId then e.setID (toString g.sequence) else e
        let e := if g.OverrideTime then e.setTime now else e
        (writeRequest mode e req, some e, g)
  let req := { req with headers := req.headers ++ g.InputHeaders }
  let req := if g.InputBody ≠ "" then { req with body := some (strBytes g.InputBody) } else req
  (req, event, g)

/-- External world oracles for a run: the HTTP `Do` result of the probe
attempt `i` and of the send of iteration `i`. An `Except.error` is a
transport-level failure, an `Except.ok` is any HTTP response. -/
structure WorldEnv where
  probe : Nat → Except String HttpResponse
  transport : Nat → Except String HttpResponse

/-- Boolean success of one probe attempt, as classified by the poll closure in
`Start`: any HTTP response (any status code) is success, only a transport
error counts as not ready. -/
def probeAttemptOk (r : Except String HttpResponse) : Bool :=
  match r with
  | Except.ok _ => true
  | Except.error _ => false

/-- Model of `wait.PollImmediate(100ms, timeout, probe)`: the poll succeeds
iff some attempt within the budget gets an HTTP response. -/
def pollSucceeds (probe : Nat → Except String HttpResponse) (attempts : Nat) : Bool :=
  (List.range attempts).any (fun i => probeAttemptOk (probe i))

/-- Error message of a probe timeout, from the `fmt.Errorf` in `Start`:
it names the sink and the timeout value. -/
def probeErrorMsg (sink : String) (timeout : Nat) : String :=
  "probing the sink " ++ sink ++ " using timeout " ++ toString timeout
    ++ "s failed: timed out waiting for the condition"

/-- Result of a run: normal completion (`return nil`), a fatal error, or fuel
exhaustion (the loop is still running). Each carries the outcome records
vented so far, in order. -/
inductive RunResult where
  | done (log : List EventInfo)
  | failed (log : List EventInfo) (err : String)
  | outOfFuel (log : List EventInfo)
deriving Repr, DecidableEq

/-- Records vented so far by a run, in order. -/
def RunResult.log : RunResult → List EventInfo
  | RunResult.done l => l
  | RunResult.failed l _ => l
  | RunResult.outOfFuel l => l

/-- Whether a run has completed normally (`Start` returned nil). -/
def RunResult.isDone : RunResult → Bool
  | RunResult.done _ => true
  | _ => false

/-- One iteration of the send loop body: build the request (`next`), perform
the exchange, and produce this iteration's outcome records — the Sent record,
followed by the Response record exactly when the exchange returned no
transport error. Returns the updated generator state, the built event and the
records in the order they are vented. -/
def stepRecords (mode : EncodingMode) (env : WorldEnv) (g : Generator) (iter : Nat) :
    Generator × Option CloudEvent × List EventInfo :=
  let r := g.next mode iter
  let req := r.1
  let event := r.2.1
  let g2 := r.2.2
  match env.transport iter with
  | Except.error msg => (g2, event, [g2.sentInfo event req (some msg) iter])
  | Except.ok res =>
      (g2, event, [g2.sentInfo event req none iter, g2.responseInfo res event iter])

/-- The send loop of `Start`, driven by fuel: each pass builds and sends,
vents the records, then returns `done` when `hasNext` is false, else loops.
`iter` doubles as the model's clock. -/
def loop (mode : EncodingMode) (env : WorldEnv) :
    Nat → Generator → Nat → List EventInfo → RunResult
  | 0, _, _, log => RunResult.outOfFuel log
  | fuel + 1, g, iter, log =>
      let s := stepRecords mode env g iter
      let log2 := log ++ s.2.2
      if s.1.hasNext then loop mode env fuel s.1 (iter + 1) log2
      else RunResult.done log2

/-- Model of `Start`: process the configuration (`init`), probe the sink when
enabled (the poll budget is one attempt per 100ms of the timeout), select the
encoding mode, then run the send loop. The startup delay and cancellation are
not modelled; the loop runs on the given fuel. -/
def start (g0 : Generator) (parse : String → Except String CloudEvent)
    (env : WorldEnv) (fuel : Nat) : RunResult :=
  match g0.init parse with
  | Except.error msg => RunResult.failed [] msg
  | Except.ok g =>
      if g.ProbeSink ∧ pollSucceeds env.probe (g.ProbeSinkTimeout * 10) = false then
        RunResult.failed [] (probeErrorMsg g.Sink g.ProbeSinkTimeout)
      else
        match parseEncoding g.EventEncoding with
        | none => RunResult.failed [] ("unsupported encoding option: " ++ g.EventEncoding)
        | some mode => loop mode env fuel g 0 []

/-- Whether an outcome record is Sent-kind. -/
def isSent (r : EventInfo) : Bool :=
  match r.kind with
  | EventKind.EventSent => true
  | EventKind.EventResponse => false

/-- Whether an outcome record is Response-kind. -/
def isResponse (r : EventInfo) : Bool :=
  match r.kind with
  | EventKind.EventSent => false
  | EventKind.EventResponse => true

/-- The Sent-kind records of a log, in order. -/
def sentRecords (l : List EventInfo) : List EventInfo := l.filter isSent

/-- Sequence numbers of the Sent-kind records of a log, in order. -/
def sentSeqs (l : List EventInfo) : List Nat := (sentRecords l).map (fun r => r.sequence)

/-- Number of Sent-kind records of a log. -/
def countSent (l : List EventInfo) : Nat := (sentRecords l).length

/-- Number of Response-kind records of a log. -/
def countResponse (l : List EventInfo) : Nat := (l.filter isResponse).length

/-- The list `[s+1, s+2, ..., s+n]` of expected sequence numbers. -/
def seqFrom : Nat → Nat → List Nat
  | _, 0 => []
  | s, n + 1 => (s + 1) :: seqFrom (s + 1) n

/-- Concrete event used in the examples: id "a", type "t". -/
def sampleEvent : CloudEvent :=
  { id := "a", eventType := "t", source := "s", time := none,
    extensions := [], dataBody := none }

/-- Concrete model of JSON unmarshalling: the serialized input "eventjson"
parses to `sampleEvent`, anything else fails. -/
def sampleParse (s : String) : Except String CloudEvent :=
  if s = "eventjson" then Except.ok sampleEvent else Except.error "bad json"

/-- A concrete HTTP response with an unrecognized cloud-event encoding. -/
def okResponse : HttpResponse :=
  { headers := [("x", "y")], statusCode := 202, encodingKnown := false,
    bodyRead := Except.ok [104, 105], decoded := Except.error "unknown encoding" }

/-- World where every probe and every send gets an HTTP response. -/
def sampleEnv : WorldEnv :=
  { probe := fun _ => Except.ok okResponse,
    transport := fun _ => Except.ok okResponse }

/-- World where every probe and every send fails at the transport level. -/
def failEnv : WorldEnv :=
  { probe := fun _ => Except.error "connection refused",
    transport := fun _ => Except.error "connection refused" }

/-- The example configuration of the spec: sink http://X, base event
(id "a", type "t"), addSequence, maxMessages 2, no probing. -/
def sampleGen : Generator :=
  { SenderName := "sender-default", Sink := "http://X", Delay := 0,
    ProbeSink := false, ProbeSinkTimeout := 60, InputEvent := "eventjson",
    EventEncoding := "binary", InputHeaders := [], InputBody := "",
    InputMethod := "POST", AddTracing := false, AddSequence := true,
    IncrementalId := false, OverrideTime := false, Period := 0,
    MaxMessages := 2, baseEvent := none, sequence := 0 }

/-- The example configuration after `init`: the base event is parsed. -/
def sampleGenInit : Generator := { sampleGen with baseEvent := some sampleEvent }

/-- A headers-only/static-body configuration: no input event, a static body,
maxMessages 1. -/
def cexGen : Generator :=
  { sampleGen with
    InputEvent := "", InputBody := "bodytext",
    AddSequence := false, MaxMessages := 1 }

/-- A probing configuration with a one-second probe timeout. -/
def probeGen : Generator :=
  { sampleGen with ProbeSink := true, ProbeSinkTimeout := 1 }

/-- The probing configuration after `init`: the base event is parsed. -/
def probeGenInit : Generator := { probeGen with baseEvent := some sampleEvent }

/-! Helper lemmas about the building blocks of the loop. -/

/-- With no base event, `next` leaves the generator state unchanged and
builds no event. -/
theorem next_base_none (g : Generator) (mode : EncodingMode) (now : Nat)
    (h : g.baseEvent = none) :
    (g.next mode now).2.2 = g ∧ (g.next mode now).2.1 = none := by
  simp [Generator.next, h]

/-- With a base event, `next` increments the sequence counter by exactly one
and changes nothing else of the generator state. -/
theorem next_base_some (g : Generator) (mode : EncodingMode) (now : Nat)
    (e : CloudEvent) (h : g.baseEvent = some e) :
    (g.next mode now).2.2 = { g with sequence := g.sequence + 1 } := by
  simp [Generator.next, h]

/-- A record produced by `sentInfo` is Sent-kind. -/
theorem sentInfo_isSent (g : Generator) (event : Option CloudEvent) (req : Request)
    (err : Option String) (now : Nat) : isSent (g.sentInfo event req err now) = true := by
  cases err <;> rfl

/-- A record produced by `sentInfo` carries the current sequence counter. -/
theorem sentInfo_sequence (g : Generator) (event : Option CloudEvent) (req : Request)
    (err : Option String) (now : Nat) : (g.sentInfo event req err now).sequence = g.sequence := by
  cases err <;> rfl

/-- A record produced by `responseInfo` is Response-kind. -/
theorem responseInfo_isResponse (g : Generator) (res : HttpResponse)
    (event : Option CloudEvent) (now : Nat) :
    isResponse (g.responseInfo res event now) = true := by
  unfold Generator.responseInfo
  cases res.encodingKnown <;>
    simp only [Bool.false_eq_true, if_false, if_true] <;>
    first
      | (cases res.bodyRead <;> rfl)
      | (cases res.decoded <;> rfl)

/-- A record produced by `responseInfo` is not Sent-kind. -/
theorem responseInfo_not_isSent (g : Generator) (res : HttpResponse)
    (event : Option CloudEvent) (now : Nat) :
    isSent (g.responseInfo res event now) = false := by
  have h := responseInfo_isResponse g res event now
  unfold isResponse at h
  unfold isSent
  cases hk : (g.responseInfo res event now).kind
  · rw [hk] at h; exact absurd h (by simp)
  · rfl

/-- A record produced by `sentInfo` is not Response-kind. -/
theorem sentInfo_not_isResponse (g : Generator) (event : Option CloudEvent) (req : Request)
    (err : Option String) (now : Nat) :
    isResponse (g.sentInfo event req err now) = false := by
  cases err <;> rfl

/-- The Sent records of a one-element log whose element is Sent-kind. -/
theorem sentRecords_single (a : EventInfo) (ha : isSent a = true) :
    sentRecords [a] = [a] := by
  simp [sentRecords, List.filter, ha]

/-- The Sent records of a Sent-then-Response pair. -/
theorem sentRecords_pair (a b : EventInfo) (ha : isSent a = true) (hb : isSent b = false) :
    sentRecords [a, b] = [a] := by
  simp [sentRecords, List.filter, ha, hb]

/-- The Response count of a one-element log whose element is Sent-kind. -/
theorem countResponse_single (a : EventInfo) (ha : isResponse a = false) :
    countResponse [a] = 0 := by
  simp [countResponse, List.filter, ha]

/-- The Response count of a Sent-then-Response pair. -/
theorem countResponse_pair (a b : EventInfo) (ha : isResponse a = false)
    (hb : isResponse b = true) : countResponse [a, b] = 1 := by
  simp [countResponse, List.filter, ha, hb]

/-- The generator state after one loop iteration is the state `next` returns. -/
theorem stepRecords_state (mode : EncodingMode) (env : WorldEnv) (g : Generator) (iter : Nat) :
    (stepRecords mode env g iter).1 = (g.next mode iter).2.2 := by
  unfold stepRecords
  cases env.transport iter <;> rfl

/-- Sent records of one iteration: exactly one, carrying the post-increment
sequence counter; at most one Response record, present exactly on transport
success. -/
theorem stepRecords_classify (mode : EncodingMode) (env : WorldEnv) (g : Generator) (iter : Nat) :
    sentSeqs (stepRecords mode env g iter).2.2 = [(g.next mode iter).2.2.sequence] ∧
    countResponse (stepRecords mode env g iter).2.2 ≤ 1 := by
  unfold stepRecords
  cases env.transport iter with
  | error msg =>
      simp only []
      constructor
      · rw [sentSeqs, sentRecords_single _ (sentInfo_isSent _ _ _ _ _)]
        simp [sentInfo_sequence]
      · rw [countResponse_single _ (sentInfo_not_isResponse _ _ _ _ _)]
        omega
  | ok res =>
      simp only []
      constructor
      · rw [sentSeqs, sentRecords_pair _ _ (sentInfo_isSent _ _ _ _ _)
            (responseInfo_not_isSent _ _ _ _)]
        simp [sentInfo_sequence]
      · rw [countResponse_pair _ _ (sentInfo_not_isResponse _ _ _ _ _)
            (responseInfo_isResponse _ _ _ _)]

/-- Sent sequence numbers distribute over log concatenation. -/
theorem sentSeqs_append (a b : List EventInfo) :
    sentSeqs (a ++ b) = sentSeqs a ++ sentSeqs b := by
  simp [sentSeqs, sentRecords, List.filter_append]

/-- Response counts distribute over log concatenation. -/
theorem countResponse_append (a b : List EventInfo) :
    countResponse (a ++ b) = countResponse a + countResponse b := by
  simp [countResponse, List.filter_append]

/-- Unfolding of one pass of the send loop. -/
theorem loop_succ (mode : EncodingMode) (env : WorldEnv) (fuel : Nat) (g : Generator)
    (iter : Nat) (log : List EventInfo) :
    loop mode env (fuel + 1) g iter log =
      (if (stepRecords mode env g iter).1.hasNext then
        loop mode env fuel (stepRecords mode env g iter).1 (iter + 1)
          (log ++ (stepRecords mode env g iter).2.2)
      else RunResult.done (log ++ (stepRecords mode env g iter).2.2)) := rfl

/-- Main loop run lemma: with a base event and a positive message bound not
yet reached, given enough fuel the loop completes normally, appending records
whose Sent sequence numbers are exactly `sequence+1, ..., MaxMessages`, with
at most one Response record per Sent record. This holds for every transport
oracle. -/
theorem loop_template_run (mode : EncodingMode) (env : WorldEnv) (e : CloudEvent) :
    ∀ (fuel : Nat) (g : Generator) (iter : Nat) (log : List EventInfo),
      g.baseEvent = some e → 0 < g.MaxMessages → g.sequence < g.MaxMessages →
      g.MaxMessages - g.sequence ≤ fuel →
      ∃ recs, loop mode env fuel g iter log = RunResult.done (log ++ recs) ∧
        sentSeqs recs = seqFrom g.sequence (g.MaxMessages - g.sequence) ∧
        countResponse recs ≤ g.MaxMessages - g.sequence := by
  intro fuel
  induction fuel with
  | zero => intro g iter log hb hM hs hf; omega
  | succ fuel ih =>
      intro g iter log hb hM hs hf
      have hstate : (stepRecords mode env g iter).1 = { g with sequence := g.sequence + 1 } := by
        rw [stepRecords_state, next_base_some g mode iter e hb]
      obtain ⟨hseq1, hresp1⟩ := stepRecords_classify mode env g iter
      rw [next_base_some g mode iter e hb] at hseq1
      rw [loop_succ, hstate]
      have hseq1b : sentSeqs (stepRecords mode env g iter).2.2 = [g.sequence + 1] := hseq1
      by_cases hlt : g.sequence + 1 < g.MaxMessages
      · have hnext : Generator.hasNext { g with sequence := g.sequence + 1 } = true := by
          simp [Generator.hasNext, hlt]
        rw [hnext, if_pos rfl]
        obtain ⟨recs2, hloop2, hseq2, hresp2⟩ :=
          ih { g with sequence := g.sequence + 1 } (iter + 1)
            (log ++ (stepRecords mode env g iter).2.2) (by simpa using hb) hM hlt
            ((by omega : g.MaxMessages - (g.sequence + 1) ≤ fuel))
        have hseq2b : sentSeqs recs2 = seqFrom (g.sequence + 1) (g.MaxMessages - (g.sequence + 1)) := hseq2
        have hresp2b : countResponse recs2 ≤ g.MaxMessages - (g.sequence + 1) := hresp2
        refine ⟨(stepRecords mode env g iter).2.2 ++ recs2, ?_, ?_, ?_⟩
        · rw [hloop2, List.append_assoc]
        · rw [sentSeqs_append, hseq1b, hseq2b]
          have hn : g.MaxMessages - g.sequence = (g.MaxMessages - (g.sequence + 1)) + 1 := by
            omega
          rw [hn]
          rfl
        · rw [countResponse_append]
          omega
      · have hnext : Generator.hasNext { g with sequence := g.sequence + 1 } = false := by
          have heq : g.MaxMessages = g.sequence + 1 := by omega
          simp [Generator.hasNext, heq]
        rw [hnext]
        simp only [Bool.false_eq_true, if_false]
        refine ⟨(stepRecords mode env g iter).2.2, rfl, ?_, ?_⟩
        · rw [hseq1b]
          have hn : g.MaxMessages - g.sequence = 1 := by omega
          rw [hn]
          rfl
        · omega

/-- A record produced by `sentInfo` has kind `EventSent`. -/
theorem sentInfo_kind (g : Generator) (event : Option CloudEvent) (req : Request)
    (err : Option String) (now : Nat) :
    (g.sentInfo event req err now).kind = EventKind.EventSent := by
  cases err <;> rfl

/-- A record produced by `responseInfo` has kind `EventResponse`. -/
theorem responseInfo_kind (g : Generator) (res : HttpResponse)
    (event : Option CloudEvent) (now : Nat) :
    (g.responseInfo res event now).kind = EventKind.EventResponse := by
  unfold Generator.responseInfo
  cases res.encodingKnown <;>
    simp only [Bool.false_eq_true, if_false, if_true] <;>
    first
      | (cases res.bodyRead <;> rfl)
      | (cases res.decoded <;> rfl)

/-- The expected-sequence list `[s+1, ..., s+n]` has length `n`. -/
theorem seqFrom_length : ∀ (s n : Nat), (seqFrom s n).length = n
  | _, 0 => rfl
  | s, n + 1 => by simp [seqFrom, seqFrom_length (s + 1) n]

/-- The Sent count of a log is the length of its Sent sequence-number list. -/
theorem countSent_eq_length_sentSeqs (l : List EventInfo) :
    countSent l = (sentSeqs l).length := by
  simp [countSent, sentSeqs]

/-- With no base event the loop never terminates on its own: every fuel
budget is exhausted with the run still going, for any message bound. -/
theorem loop_no_template (mode : EncodingMode) (env : WorldEnv) (g : Generator)
    (hb : g.baseEvent = none) (hM : 0 < g.MaxMessages) :
    ∀ (fuel iter : Nat) (log : List EventInfo),
      g.sequence < g.MaxMessages →
      ∃ l, loop mode env fuel g iter log = RunResult.outOfFuel l := by
  intro fuel
  induction fuel with
  | zero => intro iter log hs; exact ⟨log, rfl⟩
  | succ fuel ih =>
      intro iter log hs
      have hstate : (stepRecords mode env g iter).1 = g := by
        rw [stepRecords_state]
        exact (next_base_none g mode iter hb).1
      rw [loop_succ, hstate]
      have h0 : g.MaxMessages ≠ 0 := by omega
      have hnext : g.hasNext = true := by
        simp [Generator.hasNext, h0, hs]
      rw [hnext, if_pos rfl]
      exact ih (iter + 1) (log ++ (stepRecords mode env g iter).2.2) hs

/-! Claim theorems. -/

/-- C1: with a template event configured, the sequence counter starts at 0
and each call to `next` that carries a templated event increments it by
exactly one; across N completed send iterations the sequence numbers recorded
in the Sent outcomes are exactly 1, 2, ..., N with no gaps or repeats. -/
theorem C1_sequence_monotonicity (mode : EncodingMode) (env : WorldEnv) (e : CloudEvent)
    (g : Generator) (N fuel : Nat)
    (hb : g.baseEvent = some e) (hN : g.MaxMessages = N) (hpos : 0 < N)
    (hs : g.sequence = 0) (hf : N ≤ fuel) :
    (∀ (g2 : Generator) (e2 : CloudEvent) (mode2 : EncodingMode) (now : Nat),
        g2.baseEvent = some e2 → ((g2.next mode2 now).2.2).sequence = g2.sequence + 1) ∧
    ∃ recs, loop mode env fuel g 0 [] = RunResult.done recs ∧
      sentSeqs recs = seqFrom 0 N := by
  constructor
  · intro g2 e2 mode2 now h2
    rw [next_base_some g2 mode2 now e2 h2]
  · obtain ⟨recs, hl, hseq, _⟩ :=
      loop_template_run mode env e fuel g 0 [] hb (by omega) (by omega) (by omega)
    refine ⟨recs, by simpa using hl, ?_⟩
    rw [hseq, hs, hN]
    simp

/-- Witness for C1 at the example configuration with N = 2. -/
theorem C1_sequence_monotonicity_witness :
    (∀ (g2 : Generator) (e2 : CloudEvent) (mode2 : EncodingMode) (now : Nat),
        g2.baseEvent = some e2 → ((g2.next mode2 now).2.2).sequence = g2.sequence + 1) ∧
    ∃ recs, loop EncodingMode.binary sampleEnv 2 sampleGenInit 0 [] = RunResult.done recs ∧
      sentSeqs recs = seqFrom 0 2 :=
  C1_sequence_monotonicity EncodingMode.binary sampleEnv sampleEvent sampleGenInit 2 2
    rfl rfl (by decide) rfl (by decide)

/-- C2 counterexample: the claim quantifies over every run with
max-messages = K > 0, but a run whose configuration has no input event (a
static-body-only sender, here `cexGen` with max-messages 1) passes `init`
unchanged, and after two loop passes has already produced 2 Sent outcomes
without the run having ended. -/
theorem C2_termination_counterexample :
    cexGen.init sampleParse = Except.ok cexGen ∧
    cexGen.MaxMessages = 1 ∧
    countSent (start cexGen sampleParse sampleEnv 2).log = 2 ∧
    (start cexGen sampleParse sampleEnv 2).isDone = false := by
  refine ⟨rfl, rfl, ?_, rfl⟩
  rfl

/-- C2 (amended): for every run with a template event configured and
max-messages = K > 0, exactly K Sent outcome records and at most K Response
outcome records are produced, after which the run ends with no error. -/
theorem C2_termination (mode : EncodingMode) (env : WorldEnv) (e : CloudEvent)
    (g : Generator) (K fuel : Nat)
    (hb : g.baseEvent = some e) (hK : g.MaxMessages = K) (hpos : 0 < K)
    (hs : g.sequence = 0) (hf : K ≤ fuel) :
    ∃ log, loop mode env fuel g 0 [] = RunResult.done log ∧
      countSent log = K ∧ countResponse log ≤ K := by
  obtain ⟨recs, hl, hseq, hresp⟩ :=
    loop_template_run mode env e fuel g 0 [] hb (by omega) (by omega) (by omega)
  refine ⟨recs, by simpa using hl, ?_, by omega⟩
  rw [countSent_eq_length_sentSeqs, hseq, seqFrom_length]
  omega

/-- Witness for C2 (amended) at the example configuration with K = 2. -/
theorem C2_termination_witness :
    ∃ log, loop EncodingMode.binary sampleEnv 2 sampleGenInit 0 [] = RunResult.done log ∧
      countSent log = 2 ∧ countResponse log ≤ 2 :=
  C2_termination EncodingMode.binary sampleEnv sampleEvent sampleGenInit 2 2
    rfl rfl (by decide) rfl (by decide)

/-- C3: with no base event, `next` never changes the generator state (in
particular the sequence counter stays where it started), `hasNext` is true
whenever the counter is below a positive max-messages bound, and the
count-based termination never ends the run: every fuel budget is exhausted
with the run still going. -/
theorem C3_no_template_unbounded (mode : EncodingMode) (env : WorldEnv) (g : Generator)
    (hb : g.baseEvent = none) (hM : 0 < g.MaxMessages) (hs : g.sequence = 0) :
    (∀ now : Nat, (g.next mode now).2.2 = g) ∧
    g.hasNext = true ∧
    (∀ (fuel iter : Nat) (log : List EventInfo),
      ∃ l, loop mode env fuel g iter log = RunResult.outOfFuel l) := by
  refine ⟨fun now => (next_base_none g mode now hb).1, ?_, ?_⟩
  · have h0 : g.MaxMessages ≠ 0 := by omega
    simp [Generator.hasNext, h0, hs, hM]
  · intro fuel iter log
    exact loop_no_template mode env g hb hM fuel iter log (by omega)

/-- Witness for C3 at the static-body-only configuration. -/
theorem C3_no_template_unbounded_witness :
    (∀ now : Nat, (cexGen.next EncodingMode.binary now).2.2 = cexGen) ∧
    cexGen.hasNext = true ∧
    (∀ (fuel iter : Nat) (log : List EventInfo),
      ∃ l, loop EncodingMode.binary sampleEnv fuel cexGen iter log = RunResult.outOfFuel l) :=
  C3_no_template_unbounded EncodingMode.binary sampleEnv cexGen rfl (by decide) rfl

/-- C4: when a static body override is configured, the request `next` builds
carries exactly the static body bytes, for both encoding modes and regardless
of whether a templated event was encoded into the request. -/
theorem C4_static_body_precedence (g : Generator) (mode : EncodingMode) (now : Nat)
    (h : g.InputBody ≠ "") :
    (g.next mode now).1.body = some (strBytes g.InputBody) := by
  unfold Generator.next
  cases hb : g.baseEvent <;> simp [h]

/-- Witness for C4 at the static-body configuration, in both modes and with
and without a template event. -/
theorem C4_static_body_precedence_witness :
    cexGen.InputBody ≠ "" ∧
    (cexGen.next EncodingMode.binary 0).1.body = some (strBytes cexGen.InputBody) ∧
    ({ cexGen with baseEvent := some sampleEvent } : Generator).InputBody ≠ "" ∧
    (({ cexGen with baseEvent := some sampleEvent } : Generator).next
        EncodingMode.structured 0).1.body = some (strBytes cexGen.InputBody) :=
  ⟨by decide, C4_static_body_precedence cexGen EncodingMode.binary 0 (by decide),
   by decide, C4_static_body_precedence { cexGen with baseEvent := some sampleEvent }
      EncodingMode.structured 0 (by decide)⟩

/-- C5: the example configuration (sink http://X, base event id "a" type "t",
addSequence, maxMessages 2, no probing) completes normally with exactly two
Sent outcomes, whose sequence numbers are 1 and 2, whose events carry
extension sequence=1 and sequence=2 respectively, and whose identifiers are
both "a" unchanged. -/
theorem C5_example_run :
    (start sampleGen sampleParse sampleEnv 2).isDone = true ∧
    (sentRecords (start sampleGen sampleParse sampleEnv 2).log).map
        (fun r => (r.sequence, r.sentId, r.event.map (fun e => (e.id, e.extensions)))) =
      [(1, "a", some ("a", [("sequence", "1")])),
       (2, "a", some ("a", [("sequence", "2")]))] := by
  exact ⟨rfl, rfl⟩

/-- C6: in every send iteration the Sent outcome record comes before any
Response outcome record, a Response outcome is produced exactly when the HTTP
exchange returned no transport error, and a transport error never aborts the
run: the loop pass always proceeds to the same termination check and
continuation, whatever the exchange outcome was. -/
theorem C6_sent_before_response (mode : EncodingMode) (env : WorldEnv) (g : Generator)
    (iter fuel : Nat) (log : List EventInfo) :
    ((stepRecords mode env g iter).2.2).map EventInfo.kind =
      (match env.transport iter with
        | Except.error _ => [EventKind.EventSent]
        | Except.ok _ => [EventKind.EventSent, EventKind.EventResponse]) ∧
    loop mode env (fuel + 1) g iter log =
      (if (stepRecords mode env g iter).1.hasNext then
        loop mode env fuel (stepRecords mode env g iter).1 (iter + 1)
          (log ++ (stepRecords mode env g iter).2.2)
      else RunResult.done (log ++ (stepRecords mode env g iter).2.2)) := by
  refine ⟨?_, loop_succ mode env fuel g iter log⟩
  unfold stepRecords
  cases env.transport iter with
  | error msg => simp [sentInfo_kind]
  | ok res => simp [sentInfo_kind, responseInfo_kind]

/-- C7: the stored template event is never mutated by building: the generator
state returned by `next` holds exactly the same base event as before the
call, for every configuration and encoding mode. -/
theorem C7_template_not_mutated (g : Generator) (mode : EncodingMode) (now : Nat) :
    ((g.next mode now).2.2).baseEvent = g.baseEvent := by
  unfold Generator.next
  cases hb : g.baseEvent <;> simp [hb]

/-- C8: a Sent record for a failed exchange carries only the error string,
origin and observer equal to the sender identity, the current sequence
counter and the sent identifier (the event id when an event was built, empty
otherwise); it carries no event payload, no headers and no body. -/
theorem C8_sent_error_record (g : Generator) (event : Option CloudEvent) (req : Request)
    (msg : String) (now : Nat) :
    g.sentInfo event req (some msg) now =
      { kind := EventKind.EventSent, error := msg, event := none,
        origin := g.SenderName, observer := g.SenderName, time := now,
        sequence := g.sequence, httpHeaders := none, body := none,
        statusCode := none, sentId := eventIdOf event } ∧
    eventIdOf (none : Option CloudEvent) = "" ∧
    (∀ e : CloudEvent, eventIdOf (some e) = e.id) :=
  ⟨rfl, rfl, fun _ => rfl⟩

/-- C9: a Response record for a response with unrecognized encoding carries
the raw body bytes, a body-read failure becoming the error string instead;
for a recognized encoding the decoded event is attached instead of raw bytes,
a decode failure likewise becoming the error string. In no case does the
interpretation abort: a record is always produced. -/
theorem C9_response_interpretation (g : Generator) (event : Option CloudEvent)
    (now sc : Nat) (hd : List (String × String)) (msg : String) (b : Bytes)
    (ev : CloudEvent) (d : Except String CloudEvent) (br : Except String Bytes) :
    g.responseInfo
      { headers := hd, statusCode := sc, encodingKnown := false,
        bodyRead := Except.ok b, decoded := d } event now =
      { kind := EventKind.EventResponse, error := "", event := none,
        origin := g.Sink, observer := g.SenderName, time := now,
        sequence := g.sequence, httpHeaders := some hd, body := some b,
        statusCode := some sc, sentId := eventIdOf event } ∧
    g.responseInfo
      { headers := hd, statusCode := sc, encodingKnown := false,
        bodyRead := Except.error msg, decoded := d } event now =
      { kind := EventKind.EventResponse, error := msg, event := none,
        origin := g.Sink, observer := g.SenderName, time := now,
        sequence := g.sequence, httpHeaders := some hd, body := none,
        statusCode := some sc, sentId := eventIdOf event } ∧
    g.responseInfo
      { headers := hd, statusCode := sc, encodingKnown := true,
        bodyRead := br, decoded := Except.ok ev } event now =
      { kind := EventKind.EventResponse, error := "", event := some ev,
        origin := g.Sink, observer := g.SenderName, time := now,
        sequence := g.sequence, httpHeaders := some hd, body := none,
        statusCode := some sc, sentId := eventIdOf event } ∧
    g.responseInfo
      { headers := hd, statusCode := sc, encodingKnown := true,
        bodyRead := br, decoded := Except.error msg } event now =
      { kind := EventKind.EventResponse, error := msg, event := none,
        origin := g.Sink, observer := g.SenderName, time := now,
        sequence := g.sequence, httpHeaders := some hd, body := none,
        statusCode := some sc, sentId := eventIdOf event } :=
  ⟨rfl, rfl, rfl, rfl⟩

/-- C10: if probing is enabled and no probe attempt within the timeout budget
gets an HTTP response, the run fails with the error naming the sink and the
timeout value, and its outcome log is empty — no Sent or Response record is
ever produced; conversely any HTTP response to a probe, whatever its status
code, counts as a successful attempt. -/
theorem C10_probe_timeout (g0 g : Generator) (parse : String → Except String CloudEvent)
    (env : WorldEnv) (fuel : Nat)
    (hinit : g0.init parse = Except.ok g)
    (hprobe : g.ProbeSink = true)
    (hfail : pollSucceeds env.probe (g.ProbeSinkTimeout * 10) = false) :
    start g0 parse env fuel =
      RunResult.failed [] (probeErrorMsg g.Sink g.ProbeSinkTimeout) ∧
    (start g0 parse env fuel).log = [] ∧
    probeErrorMsg g.Sink g.ProbeSinkTimeout =
      "probing the sink " ++ g.Sink ++ " using timeout " ++ toString g.ProbeSinkTimeout
        ++ "s failed: timed out waiting for the condition" ∧
    (∀ res : HttpResponse, probeAttemptOk (Except.ok res) = true) := by
  have h1 : start g0 parse env fuel =
      RunResult.failed [] (probeErrorMsg g.Sink g.ProbeSinkTimeout) := by
    unfold start
    rw [hinit]
    simp [hprobe, hfail]
  exact ⟨h1, by rw [h1]; rfl, rfl, fun _ => rfl⟩

/-- Witness for C10 at a probing configuration whose sink never answers. -/
theorem C10_probe_timeout_witness :
    start probeGen sampleParse failEnv 1 =
      RunResult.failed [] (probeErrorMsg probeGenInit.Sink probeGenInit.ProbeSinkTimeout) ∧
    (start probeGen sampleParse failEnv 1).log = [] ∧
    probeErrorMsg probeGenInit.Sink probeGenInit.ProbeSinkTimeout =
      "probing the sink " ++ probeGenInit.Sink ++ " using timeout "
        ++ toString probeGenInit.ProbeSinkTimeout
        ++ "s failed: timed out waiting for the condition" ∧
    (∀ res : HttpResponse, probeAttemptOk (Except.ok res) = true) :=
  C10_probe_timeout probeGen probeGenInit sampleParse failEnv 1 (by decide) rfl (by decide)

end Sender
